import Mathlib

/-!
Shallow embedding of the DocBase MCP adapter (`src/index.ts`).

The adapter exposes two tools, `searchMemos` and `getMemoDetail`, over an
MCP stdio server.  Each tool builds a GET request against the DocBase API,
checks the HTTP status, projects the parsed JSON body down to a fixed field
subset and wraps the result as a single pretty-printed text content block.

Modelling choices:
* JSON values are the inductive `Json`; numeric JSON fields of upstream
  bodies are integers (ids, totals, page numbers in the DocBase schema).
* JavaScript numbers appearing as tool parameters (`page`, `perPage`) are
  rationals, so that zero, negative and non-integer inputs are expressible;
  an absent optional parameter is `Option.none` (JS `undefined`).
* `JSON.stringify(v, null, indent)` is modelled by `jsonStringify`,
  including its indentation and string-escaping behaviour.
* The HTTP layer is a function `fetch : Request → HttpResponse β` supplied
  to the handler; `Request` records method, path, query parameters and
  headers exactly as the source assembles them with `URL` and
  `searchParams.append`.
* Thrown JavaScript values are `Thrown`: either an `Error` (here `JsError`,
  carrying its message) or an arbitrary non-`Error` value.
-/

/-- JSON values, as parsed from upstream response bodies and as assembled by
the projection code before serialization. -/
inductive Json where
  | null : Json
  | bool : Bool → Json
  | num : Int → Json
  | str : String → Json
  | arr : List Json → Json
  | obj : List (String × Json) → Json
deriving Repr

/-- A run of `n` spaces, used for `JSON.stringify` indentation. -/
def spaces (n : Nat) : String :=
  String.mk (List.replicate n ' ')

/-- Lower-case hexadecimal digit for `n < 16`. -/
def hexDigit (n : Nat) : Char :=
  if n < 10 then Char.ofNat ('0'.toNat + n) else Char.ofNat ('a'.toNat + (n - 10))

/-- Escape of a single character inside a JSON string literal, following
`JSON.stringify`: the two-character escapes for quote, backslash and the
named control characters, `\u00xx` for the remaining control characters,
and the character itself otherwise. -/
def jsEscapeChar (c : Char) : String :=
  if c = '"' then "\\\""
  else if c = '\\' then "\\\\"
  else if c = '\x08' then "\\b"
  else if c = '\t' then "\\t"
  else if c = '\n' then "\\n"
  else if c = '\x0c' then "\\f"
  else if c = '\r' then "\\r"
  else if c.toNat < 32 then "\\u00" ++ String.mk [hexDigit (c.toNat / 16), hexDigit (c.toNat % 16)]
  else c.toString

/-- A JSON string literal: surrounding quotes plus character escapes. -/
def jsQuote (s : String) : String :=
  "\"" ++ String.join (s.data.map jsEscapeChar) ++ "\""

mutual

/-- Rendering of a JSON value with indent width `ind` at nesting depth `d`,
following `JSON.stringify(v, null, ind)`: empty arrays and objects render
flat, non-empty ones put every element on its own line indented one level
deeper than the closing bracket. -/
def renderJson (ind d : Nat) : Json → String
  | Json.null => "null"
  | Json.bool b => if b then "true" else "false"
  | Json.num n => toString n
  | Json.str s => jsQuote s
  | Json.arr xs =>
      match xs with
      | [] => "[]"
      | x :: rest =>
          "[\n" ++ String.intercalate ",\n" (renderJsonItems ind (d + 1) (x :: rest))
            ++ "\n" ++ spaces (ind * d) ++ "]"
  | Json.obj fs =>
      match fs with
      | [] => "\x7b\x7d"
      | f :: rest =>
          "\x7b\n" ++ String.intercalate ",\n" (renderJsonFields ind (d + 1) (f :: rest))
            ++ "\n" ++ spaces (ind * d) ++ "\x7d"

/-- Rendering of the elements of a JSON array, one line per element. -/
def renderJsonItems (ind d : Nat) : List Json → List String
  | [] => []
  | x :: xs => (spaces (ind * d) ++ renderJson ind d x) :: renderJsonItems ind d xs

/-- Rendering of the fields of a JSON object, one `"key": value` line per
field. -/
def renderJsonFields (ind d : Nat) : List (String × Json) → List String
  | [] => []
  | (k, v) :: fs => (spaces (ind * d) ++ jsQuote k ++ ": " ++ renderJson ind d v) :: renderJsonFields ind d fs

end

/-- Model of `JSON.stringify(v, null, indent)`. -/
def jsonStringify (indent : Nat) (v : Json) : String :=
  renderJson indent 0 v

/-- The configuration read once at startup: `DOCBASE_TOKEN` and
`DOCBASE_DOMAIN`. -/
structure Config where
  token : String
  domain : String

/-- A value appended to the URL query string: the source appends the query
text as-is and appends `page`/`per_page` via `Number.prototype.toString`,
so the embedding keeps the underlying value. -/
inductive QueryVal where
  | str : String → QueryVal
  | num : Rat → QueryVal
deriving Repr

/-- An outgoing HTTP request as assembled by the client helper: method,
URL path, query parameters in append order, and headers. -/
structure Request where
  method : String
  path : String
  query : List (String × QueryVal)
  headers : List (String × String)

/-- Common headers of `createDocBaseClient`. -/
def clientHeaders (cfg : Config) : List (String × String) :=
  [("X-DocBaseToken", cfg.token), ("Content-Type", "application/json")]

/-- URL and request assembly of `createDocBaseClient().searchMemos`:
`GET /teams/{domain}/posts` with `q`, `page`, `per_page` appended in that
order. -/
def searchMemosUrl (cfg : Config) (query : String) (page perPage : Rat) : Request :=
  { method := "GET"
    path := "/teams/" ++ cfg.domain ++ "/posts"
    query := [("q", QueryVal.str query), ("page", QueryVal.num page), ("per_page", QueryVal.num perPage)]
    headers := clientHeaders cfg }

/-- URL and request assembly of `createDocBaseClient().getMemo`:
`GET /teams/{domain}/posts/{id}` with no query parameters. -/
def getMemoUrl (cfg : Config) (id : String) : Request :=
  { method := "GET"
    path := "/teams/" ++ cfg.domain ++ "/posts/" ++ id
    query := []
    headers := clientHeaders cfg }

/-- Lookup of a query parameter by key in a request. -/
def queryParam (r : Request) (k : String) : Option QueryVal :=
  (r.query.find? fun kv => kv.fst == k).map Prod.snd

/-- An upstream HTTP response: status code, status text and (parsed) body. -/
structure HttpResponse (β : Type) where
  status : Nat
  statusText : String
  body : β

/-- The `Response.ok` predicate of `fetch`: status in the range 200–299. -/
def responseOk (status : Nat) : Bool :=
  decide (200 ≤ status ∧ status ≤ 299)

/-- A JavaScript `Error` value, identified by its message. -/
structure JsError where
  message : String
deriving Repr

/-- A thrown JavaScript value: an `Error` instance or any other value. -/
inductive Thrown where
  | err : JsError → Thrown
  | value : Json → Thrown

/-- The message of the error thrown by both client methods on a non-ok
response: `APIリクエストエラー: ${response.status} ${response.statusText}`. -/
def apiErrorMessage (status : Nat) (statusText : String) : String :=
  "APIリクエストエラー: " ++ toString status ++ " " ++ statusText

/-- The shared `response.ok` check of both client methods: on success the
parsed body is returned, otherwise an `Error` with `apiErrorMessage` is
thrown (and no body is read). -/
def checkedResponse {β : Type} (resp : HttpResponse β) : Except Thrown β :=
  if responseOk resp.status then Except.ok resp.body
  else Except.error (Thrown.err ⟨apiErrorMessage resp.status resp.statusText⟩)

/-- An upstream post as accessed by the search handler: the projected
fields `id`, `title`, `url` plus the remaining fields of the record, which
the projection ignores. -/
structure UpstreamPost where
  id : Json
  title : Json
  url : Json
  extra : List (String × Json)

/-- The `meta` object of an upstream search response. -/
structure SearchMeta where
  total : Json
  next_page : Json
  previous_page : Json

/-- An upstream search response body: `posts` array and `meta` object,
plus any further fields the handler never reads. -/
structure SearchResponse where
  posts : List UpstreamPost
  meta : SearchMeta
  extra : List (String × Json)

/-- An upstream object carrying a `name` field (a tag, a group or the
user), plus its remaining fields, which the projection ignores. -/
structure NamedObj where
  name : Json
  extra : List (String × Json)

/-- An upstream memo detail body as accessed by the detail handler. -/
structure MemoDetail where
  id : Json
  title : Json
  body : Json
  url : Json
  created_at : Json
  updated_at : Json
  tags : List NamedObj
  user : NamedObj
  groups : List NamedObj
  extra : List (String × Json)

/-- Projection of one post to `{id, title, url}` (the `result.posts.map`
callback of the search handler). -/
def projectPost (p : UpstreamPost) : Json :=
  Json.obj [("id", p.id), ("title", p.title), ("url", p.url)]

/-- The object built by the search handler from an upstream body:
`{memos, total, nextPage, previousPage}`. -/
def projectSearch (r : SearchResponse) : Json :=
  Json.obj
    [("memos", Json.arr (r.posts.map projectPost)),
     ("total", r.meta.total),
     ("nextPage", r.meta.next_page),
     ("previousPage", r.meta.previous_page)]

/-- The object built by the detail handler from an upstream body. -/
def projectDetail (m : MemoDetail) : Json :=
  Json.obj
    [("id", m.id),
     ("title", m.title),
     ("body", m.body),
     ("url", m.url),
     ("createdAt", m.created_at),
     ("updatedAt", m.updated_at),
     ("tags", Json.arr (m.tags.map NamedObj.name)),
     ("user", m.user.name),
     ("groups", Json.arr (m.groups.map NamedObj.name))]

/-- One element of a tool result's `content` array. -/
structure ContentBlock where
  type : String
  text : String
deriving Repr

/-- A successful tool result: the `{ content: [...] }` object returned by
both handlers. -/
structure ToolResult where
  content : List ContentBlock
deriving Repr

/-- The `catch` clause shared by both handlers:
`error instanceof Error ? error : new Error('不明なエラーが発生しました')`. -/
def rethrown : Thrown → JsError
  | Thrown.err e => e
  | Thrown.value _ => ⟨"不明なエラーが発生しました"⟩

/-- The `try`/`catch` wrapper of both handlers: a thrown value is
normalized by `rethrown` before being rethrown to the MCP layer. -/
def handlerWrap (body : Except Thrown ToolResult) : Except JsError ToolResult :=
  match body with
  | Except.ok r => Except.ok r
  | Except.error t => Except.error (rethrown t)

/-- The `limitedPerPage` computation of the search handler:
`perPage && perPage > 100 ? 100 : perPage`, with JavaScript truthiness of
the number (`0` and `undefined` are falsy). -/
def limitedPerPage (perPage : Option Rat) : Option Rat :=
  match perPage with
  | none => none
  | some p => if p ≠ 0 ∧ 100 < p then some 100 else some p

/-- The request issued for one `searchMemos` invocation: the handler clamps
`perPage` via `limitedPerPage`, then the client substitutes the default
parameters `page = 1`, `perPage = 20` for absent arguments and assembles
the URL. -/
def searchMemosOutgoingRequest (cfg : Config) (query : String) (page perPage : Option Rat) : Request :=
  searchMemosUrl cfg query (page.getD 1) ((limitedPerPage perPage).getD 20)

/-- The `searchMemos` tool handler: clamp `perPage`, issue the request via
`fetch`, check the status, project the body and wrap it as one text content
block of pretty-printed JSON; thrown values pass through the `catch`
normalization. -/
def searchMemosHandler (cfg : Config) (fetch : Request → HttpResponse SearchResponse)
    (query : String) (page perPage : Option Rat) : Except JsError ToolResult :=
  handlerWrap
    (match checkedResponse (fetch (searchMemosOutgoingRequest cfg query page perPage)) with
     | Except.error t => Except.error t
     | Except.ok result => Except.ok ⟨[⟨"text", jsonStringify 2 (projectSearch result)⟩]⟩)

/-- The `getMemoDetail` tool handler: issue the request via `fetch`, check
the status, project the body and wrap it as one text content block of
pretty-printed JSON; thrown values pass through the `catch` normalization. -/
def getMemoDetailHandler (cfg : Config) (fetch : Request → HttpResponse MemoDetail)
    (id : String) : Except JsError ToolResult :=
  handlerWrap
    (match checkedResponse (fetch (getMemoUrl cfg id)) with
     | Except.error t => Except.error t
     | Except.ok memo => Except.ok ⟨[⟨"text", jsonStringify 2 (projectDetail memo)⟩]⟩)

/-- The outcome of module start: either `process.exit(code)` after printing
a diagnostic, or a running server over the given configuration. -/
inductive StartupOutcome where
  | exit : Nat → String → StartupOutcome
  | serve : Config → StartupOutcome

/-- JavaScript truthiness of an optional environment variable string:
`undefined` and the empty string are falsy. -/
def jsTruthy : Option String → Bool
  | none => false
  | some s => !(s == "")

/-- The startup environment check: `!DOCBASE_TOKEN` and `!DOCBASE_DOMAIN`
each cause `process.exit(1)` with a diagnostic message before the server
value is constructed. -/
def startup (token domain : Option String) : StartupOutcome :=
  if !jsTruthy token then
    StartupOutcome.exit 1 "エラー: DOCBASE_TOKEN 環境変数が設定されていません。"
  else if !jsTruthy domain then
    StartupOutcome.exit 1 "エラー: DOCBASE_DOMAIN 環境変数が設定されていません。"
  else
    StartupOutcome.serve ⟨token.getD "", domain.getD ""⟩

/-! Claim theorems -/

/-- C1: for every `searchMemos` invocation, a provided `perPage` greater
than 100 is sent upstream as `per_page = 100`; a provided `perPage` at most
100 is sent upstream unchanged; an absent `perPage` is passed through the
clamp unchanged (the client then applies its own default, see the default
parameter theorem). -/
theorem perPage_clamp_spec (cfg : Config) (query : String) (page : Option Rat) (p : Rat) :
    (100 < p →
      queryParam (searchMemosOutgoingRequest cfg query page (some p)) "per_page" =
        some (QueryVal.num 100))
    ∧ (p ≤ 100 →
      queryParam (searchMemosOutgoingRequest cfg query page (some p)) "per_page" =
        some (QueryVal.num p))
    ∧ limitedPerPage none = none := by
  refine ⟨fun h => ?_, fun h => ?_, rfl⟩
  · have hc : p ≠ 0 ∧ 100 < p := ⟨ne_of_gt (lt_trans (by norm_num) h), h⟩
    have hlpp : limitedPerPage (some p) = some 100 := by
      simp only [limitedPerPage]
      rw [if_pos hc]
    have hreq : searchMemosOutgoingRequest cfg query page (some p) =
        searchMemosUrl cfg query (page.getD 1) ((limitedPerPage (some p)).getD 20) := rfl
    rw [hreq, hlpp]
    rfl
  · have hc : ¬(p ≠ 0 ∧ 100 < p) := fun hcon => absurd hcon.2 (not_lt.2 h)
    have hlpp : limitedPerPage (some p) = some p := by
      simp only [limitedPerPage]
      rw [if_neg hc]
    have hreq : searchMemosOutgoingRequest cfg query page (some p) =
        searchMemosUrl cfg query (page.getD 1) ((limitedPerPage (some p)).getD 20) := rfl
    rw [hreq, hlpp]
    rfl

/-- C1 witness: `perPage = 120` is clamped to 100, `perPage = 50` passes
through unchanged. -/
theorem perPage_clamp_spec_witness :
    queryParam (searchMemosOutgoingRequest ⟨"tok", "dom"⟩ "q" none (some 120)) "per_page" =
      some (QueryVal.num 100)
    ∧ queryParam (searchMemosOutgoingRequest ⟨"tok", "dom"⟩ "q" none (some 50)) "per_page" =
      some (QueryVal.num 50) :=
  ⟨(perPage_clamp_spec ⟨"tok", "dom"⟩ "q" none 120).1 (by decide),
   (perPage_clamp_spec ⟨"tok", "dom"⟩ "q" none 50).2.1 (by decide)⟩

/-- C2: the search projection maps the upstream `posts` array elementwise
and in order to `{id, title, url}` objects, keeps the element count, and
copies `meta.total`, `meta.next_page`, `meta.previous_page` to `total`,
`nextPage`, `previousPage`. -/
theorem searchMemos_projection_spec (r : SearchResponse) :
    projectSearch r =
      Json.obj
        [("memos", Json.arr (r.posts.map fun p =>
            Json.obj [("id", p.id), ("title", p.title), ("url", p.url)])),
         ("total", r.meta.total),
         ("nextPage", r.meta.next_page),
         ("previousPage", r.meta.previous_page)]
    ∧ (r.posts.map fun p =>
        Json.obj [("id", p.id), ("title", p.title), ("url", p.url)]).length = r.posts.length
    ∧ ∀ i : Nat,
        (r.posts.map fun p =>
          Json.obj [("id", p.id), ("title", p.title), ("url", p.url)])[i]? =
        Option.map (fun p => Json.obj [("id", p.id), ("title", p.title), ("url", p.url)])
          r.posts[i]? :=
  ⟨rfl, by simp, fun i => by simp⟩

/-- C3: the detail projection maps each tag and each group to its `name`
field, maps `user` to the single value `user.name`, and carries over `id`,
`title`, `body`, `url`, `created_at` as `createdAt` and `updated_at` as
`updatedAt`. -/
theorem getMemoDetail_projection_spec (m : MemoDetail) :
    projectDetail m =
      Json.obj
        [("id", m.id), ("title", m.title), ("body", m.body), ("url", m.url),
         ("createdAt", m.created_at), ("updatedAt", m.updated_at),
         ("tags", Json.arr (m.tags.map fun t => t.name)),
         ("user", m.user.name),
         ("groups", Json.arr (m.groups.map fun g => g.name))] := rfl

/-- C4: a non-2xx upstream response makes either tool handler fail with an
error whose message contains the numeric status code and the status text,
and no projected body is returned. -/
theorem non2xx_error_spec (cfg : Config) (query : String) (page perPage : Option Rat)
    (id : String) (sResp : HttpResponse SearchResponse) (dResp : HttpResponse MemoDetail)
    (hs : responseOk sResp.status = false) (hd : responseOk dResp.status = false) :
    searchMemosHandler cfg (fun _ => sResp) query page perPage =
      Except.error ⟨apiErrorMessage sResp.status sResp.statusText⟩
    ∧ getMemoDetailHandler cfg (fun _ => dResp) id =
      Except.error ⟨apiErrorMessage dResp.status dResp.statusText⟩
    ∧ (∃ a b : String,
        apiErrorMessage sResp.status sResp.statusText = a ++ toString sResp.status ++ b)
    ∧ (∃ a b : String,
        apiErrorMessage sResp.status sResp.statusText = a ++ sResp.statusText ++ b)
    ∧ (∃ a b : String,
        apiErrorMessage dResp.status dResp.statusText = a ++ toString dResp.status ++ b)
    ∧ (∃ a b : String,
        apiErrorMessage dResp.status dResp.statusText = a ++ dResp.statusText ++ b) := by
  refine ⟨?_, ?_,
    ⟨"APIリクエストエラー: ", " " ++ sResp.statusText, ?_⟩,
    ⟨"APIリクエストエラー: " ++ toString sResp.status ++ " ", "", ?_⟩,
    ⟨"APIリクエストエラー: ", " " ++ dResp.statusText, ?_⟩,
    ⟨"APIリクエストエラー: " ++ toString dResp.status ++ " ", "", ?_⟩⟩
  · simp [searchMemosHandler, checkedResponse, hs, handlerWrap, rethrown]
  · simp [getMemoDetailHandler, checkedResponse, hd, handlerWrap, rethrown]
  · simp [apiErrorMessage, String.append_assoc]
  · simp [apiErrorMessage, String.append_assoc]
  · simp [apiErrorMessage, String.append_assoc]
  · simp [apiErrorMessage, String.append_assoc]

/-- C4 witness: a 404 search response and a 500 detail response each fail
with the exact API error message. -/
theorem non2xx_error_spec_witness :
    searchMemosHandler ⟨"tok", "dom"⟩
        (fun _ => ⟨404, "Not Found", ⟨[], ⟨Json.num 0, Json.null, Json.null⟩, []⟩⟩)
        "q" none none =
      Except.error ⟨"APIリクエストエラー: 404 Not Found"⟩
    ∧ getMemoDetailHandler ⟨"tok", "dom"⟩
        (fun _ => ⟨500, "Internal Server Error",
          ⟨Json.null, Json.null, Json.null, Json.null, Json.null, Json.null,
           [], ⟨Json.null, []⟩, [], []⟩⟩)
        "1" =
      Except.error ⟨"APIリクエストエラー: 500 Internal Server Error"⟩ := by
  have h := non2xx_error_spec ⟨"tok", "dom"⟩ "q" none none "1"
    ⟨404, "Not Found", ⟨[], ⟨Json.num 0, Json.null, Json.null⟩, []⟩⟩
    ⟨500, "Internal Server Error",
      ⟨Json.null, Json.null, Json.null, Json.null, Json.null, Json.null,
       [], ⟨Json.null, []⟩, [], []⟩⟩
    rfl rfl
  exact ⟨h.1.trans (by rfl), h.2.1.trans (by rfl)⟩

/-- C5: if `DOCBASE_TOKEN` or `DOCBASE_DOMAIN` is absent or empty at
process start, startup exits with status 1 after a diagnostic message, and
no server configuration is ever produced. -/
theorem startup_env_check_spec (token domain : Option String)
    (h : (token = none ∨ token = some "") ∨ (domain = none ∨ domain = some "")) :
    (∃ msg : String, startup token domain = StartupOutcome.exit 1 msg)
    ∧ ∀ cfg : Config, startup token domain ≠ StartupOutcome.serve cfg := by
  have hstart : ∃ msg : String, startup token domain = StartupOutcome.exit 1 msg := by
    by_cases ht : jsTruthy token = true
    · rcases h with htok | hdom
      · exfalso
        rcases htok with h1 | h1 <;> subst h1 <;> exact Bool.noConfusion ht
      · have hd : jsTruthy domain = false := by
          rcases hdom with h1 | h1 <;> subst h1 <;> rfl
        exact ⟨"エラー: DOCBASE_DOMAIN 環境変数が設定されていません。",
          by simp [startup, ht, hd]⟩
    · have ht' : jsTruthy token = false := by
        cases hb : jsTruthy token
        · rfl
        · exact absurd hb ht
      exact ⟨"エラー: DOCBASE_TOKEN 環境変数が設定されていません。",
        by simp [startup, ht']⟩
  refine ⟨hstart, fun cfg hserve => ?_⟩
  rcases hstart with ⟨msg, hmsg⟩
  rw [hmsg] at hserve
  exact StartupOutcome.noConfusion hserve

/-- C5 witness: with `DOCBASE_TOKEN` unset and `DOCBASE_DOMAIN` set, the
server outcome is never reached. -/
theorem startup_env_check_spec_witness :
    startup none (some "dom") ≠ StartupOutcome.serve ⟨"", "dom"⟩ :=
  (startup_env_check_spec none (some "dom") (Or.inl (Or.inl rfl))).2 ⟨"", "dom"⟩

/-- C6: every `searchMemos` request is a GET to `/teams/{domain}/posts`
whose query parameters are exactly `q`, `page`, `per_page`; every
`getMemoDetail` request is a GET to `/teams/{domain}/posts/{id}` with no
query parameters; both carry the token in the `X-DocBaseToken` header. -/
theorem request_shape_spec (cfg : Config) (query : String) (page perPage : Option Rat)
    (id : String) :
    (searchMemosOutgoingRequest cfg query page perPage).method = "GET"
    ∧ (searchMemosOutgoingRequest cfg query page perPage).path = "/teams/" ++ cfg.domain ++ "/posts"
    ∧ (searchMemosOutgoingRequest cfg query page perPage).query.map Prod.fst =
        ["q", "page", "per_page"]
    ∧ (getMemoUrl cfg id).method = "GET"
    ∧ (getMemoUrl cfg id).path = "/teams/" ++ cfg.domain ++ "/posts/" ++ id
    ∧ (getMemoUrl cfg id).query = []
    ∧ ("X-DocBaseToken", cfg.token) ∈ (searchMemosOutgoingRequest cfg query page perPage).headers
    ∧ ("X-DocBaseToken", cfg.token) ∈ (getMemoUrl cfg id).headers := by
  refine ⟨rfl, rfl, rfl, rfl, rfl, rfl, ?_, ?_⟩ <;>
    simp [searchMemosOutgoingRequest, searchMemosUrl, getMemoUrl, clientHeaders]

/-- C7: the shared catch clause rethrows a non-`Error` thrown value as an
`Error` with the fixed unknown-error message, and propagates `Error`
instances unchanged. -/
theorem unknown_error_normalization_spec :
    (∀ v : Json, handlerWrap (Except.error (Thrown.value v)) =
      Except.error ⟨"不明なエラーが発生しました"⟩)
    ∧ (∀ e : JsError, handlerWrap (Except.error (Thrown.err e)) = Except.error e) :=
  ⟨fun _ => rfl, fun _ => rfl⟩

/-- C8: on a 2xx upstream response, either tool handler returns exactly one
content element of type `text` whose text is the 2-space-indented
`JSON.stringify` serialization of the projected object. -/
theorem tool_result_content_spec (cfg : Config) (query : String) (page perPage : Option Rat)
    (id : String) (sResp : HttpResponse SearchResponse) (dResp : HttpResponse MemoDetail)
    (hs : responseOk sResp.status = true) (hd : responseOk dResp.status = true) :
    searchMemosHandler cfg (fun _ => sResp) query page perPage =
      Except.ok ⟨[⟨"text", jsonStringify 2 (projectSearch sResp.body)⟩]⟩
    ∧ getMemoDetailHandler cfg (fun _ => dResp) id =
      Except.ok ⟨[⟨"text", jsonStringify 2 (projectDetail dResp.body)⟩]⟩ := by
  constructor <;>
    simp [searchMemosHandler, getMemoDetailHandler, checkedResponse, hs, hd, handlerWrap]

/-- C8 witness: a 200 response with one post yields exactly one text block
holding the concrete 2-space-indented JSON. -/
theorem tool_result_content_spec_witness :
    searchMemosHandler ⟨"tok", "dom"⟩
        (fun _ => ⟨200, "OK",
          ⟨[⟨Json.num 1, Json.str "t1", Json.str "u1", []⟩],
           ⟨Json.num 1, Json.null, Json.null⟩, []⟩⟩)
        "q" none none =
      Except.ok ⟨[⟨"text",
        "\x7b\n  \"memos\": [\n    \x7b\n      \"id\": 1,\n      \"title\": \"t1\",\n      \"url\": \"u1\"\n    \x7d\n  ],\n  \"total\": 1,\n  \"nextPage\": null,\n  \"previousPage\": null\n\x7d"⟩]⟩ := by
  have h := (tool_result_content_spec ⟨"tok", "dom"⟩ "q" none none "1"
    ⟨200, "OK",
      ⟨[⟨Json.num 1, Json.str "t1", Json.str "u1", []⟩],
       ⟨Json.num 1, Json.null, Json.null⟩, []⟩⟩
    ⟨200, "OK",
      ⟨Json.null, Json.null, Json.null, Json.null, Json.null, Json.null,
       [], ⟨Json.null, []⟩, [], []⟩⟩
    rfl rfl).1
  exact h.trans (by rfl)

/-- C9: a provided `page` value — zero, negative or non-integer included —
is placed in the outgoing query string unchanged, and the `id` string is
interpolated into the request path without validation. -/
theorem page_id_passthrough_spec (cfg : Config) (query : String) (p : Rat)
    (perPage : Option Rat) (id : String) :
    queryParam (searchMemosOutgoingRequest cfg query (some p) perPage) "page" =
      some (QueryVal.num p)
    ∧ getMemoUrl cfg id =
        { method := "GET"
          path := "/teams/" ++ cfg.domain ++ "/posts/" ++ id
          query := []
          headers := clientHeaders cfg } :=
  ⟨rfl, rfl⟩

/-- C10: an absent `page` is sent upstream as the adapter default 1, an
absent `perPage` as the adapter default 20, and the outgoing query string
always contains exactly the parameters `q`, `page` and `per_page`. -/
theorem default_params_spec (cfg : Config) (query : String) (page perPage : Option Rat) :
    queryParam (searchMemosOutgoingRequest cfg query none perPage) "page" =
      some (QueryVal.num 1)
    ∧ queryParam (searchMemosOutgoingRequest cfg query page none) "per_page" =
      some (QueryVal.num 20)
    ∧ (searchMemosOutgoingRequest cfg query page perPage).query.map Prod.fst =
        ["q", "page", "per_page"] :=
  ⟨rfl, rfl, rfl⟩
